import Mathlib

/-!
Shallow embedding of the fixed-size thread pool in
src/include/threadpool_V1.h and src/src/threadpool_V1.cpp
(class opensource::cpp::ThreadPool).

Modelling conventions, stated once here:

* The mutable state of a pool object is the structure ThreadPool below.
  The mutex and the condition variable serialize all access in the C++
  code, so one public call (or one worker-loop iteration) is modelled as
  a pure function from pool state to pool state; a theorem about a call
  is a theorem about that function evaluated at the entry state, under
  the assumption that no other thread mutates the pool during the call.
* The clock collaborator getNowMs() returns the current time in
  milliseconds.  The header declares the member
      const int64_t TNOWMS = getNowMs();
  which is a const data member evaluated ONCE when the object is
  constructed.  We therefore model construction as taking the clock
  reading at construction time and storing it in the field TNOWMS; no
  later operation of the class ever calls getNowMs() again (exec and
  run both read the member TNOWMS), so no other operation takes a
  clock argument.
* A submitted work item is bound by exec into a
  std::packaged_task.  Invoking a packaged_task runs the stored
  callable and stores either its return value or the exception it
  raised into the shared state of the associated future; the
  invocation itself does not let the task fault escape.  We model the
  bound callable of a task as a value of type Except String Int (it
  either returns an Int or raises a String), together with a Nat
  identifier naming its promise/future pair.  The envelope field
  _func : std::function of void() is exactly the closure that invokes
  the packaged_task, so running _func is modelled as appending
  (id, outcome of the callable) to the list of fulfilled promises.
* The queue of type queue of TaskFuncPtr is a Lean list with the FRONT
  at the head: push is append at the back, front/pop act on the head.
* The vector of std::thread handles carries no data relevant to any
  claim beyond its size (getThreadNum returns threads_.size()), so it
  is modelled by its size, a Nat.
-/

set_option autoImplicit false

namespace ThreadPoolV1

deriving instance DecidableEq for Except

/-- Outcome stored in the shared state of a promise/future pair when a
packaged_task is invoked: either the value returned by the bound work
item, or the fault it raised, captured by the packaged_task. -/
inductive Outcome where
| value : Int → Outcome
| fault : String → Outcome
deriving DecidableEq

/-- TaskFunc (threadpool_V1.h, lines 57 to 65): the task envelope.
The C++ fields are _func (the closure invoking the packaged_task) and
_expireTime (absolute deadline in ms, 0 meaning no deadline).  The
closure is represented by the identifier of its promise (id) and the
bound work item (work); see the module comment. -/
structure TaskFunc where
  id : Nat
  work : Except String Int
  _expireTime : Int
deriving DecidableEq

/-- State of a ThreadPool object (threadpool_V1.h, lines 130 to 148).
tasks_ is the FIFO queue (front at head), threads_ the size of the
worker vector, threadNum_ the configured count, bTerminate_ the
shutdown flag, atomic_ the in-flight counter, TNOWMS the const member
holding the clock reading taken at construction.  fulfilled is not a
C++ data member: it models the shared states of all promise/future
pairs handed out by exec, recording (promise id, outcome) each time a
packaged_task is invoked. -/
structure ThreadPool where
  tasks_ : List TaskFunc
  threads_ : Nat
  threadNum_ : Nat
  bTerminate_ : Bool
  atomic_ : Int
  TNOWMS : Int
  fulfilled : List (Nat × Outcome)
deriving DecidableEq

/-- ThreadPool constructor (threadpool_V1.cpp, lines 5 to 8) together
with the in-class initializers of the header: threadNum_ is 1,
bTerminate_ is false, the queue and thread vector are empty, atomic_
is 0, and TNOWMS is set to getNowMs() evaluated at construction time;
now is that clock reading. -/
def construct (now : Int) : ThreadPool :=
  { tasks_ := [], threads_ := 0, threadNum_ := 1, bTerminate_ := false,
    atomic_ := 0, TNOWMS := now, fulfilled := [] }

/-- getThreadNum (threadpool_V1.h, lines 69 to 74): returns
threads_.size() under the mutex. -/
def getThreadNum (pool : ThreadPool) : Nat :=
  pool.threads_

/-- getJobNum (threadpool_V1.h, lines 75 to 79): returns tasks_.size()
under the mutex. -/
def getJobNum (pool : ThreadPool) : Nat :=
  pool.tasks_.length

/-- Expiry computation in exec (threadpool_V1.h, line 111):
expireTime is 0 when timeoutMs is 0, and TNOWMS + timeoutMs otherwise,
where TNOWMS is the const member cached at construction. -/
def expireTimeOf (pool : ThreadPool) (timeoutMs : Int) : Int :=
  if timeoutMs = 0 then 0 else pool.TNOWMS + timeoutMs

/-- Follows the SPEC wording, for comparison with expireTimeOf: the
spec says submit computes expireAt as 0 when deadlineMs is 0 and
otherwise nowAtSubmit + deadlineMs, where nowAtSubmit is the clock
queried fresh at the moment of the submit call. -/
def specExpireAt (nowAtSubmit deadlineMs : Int) : Int :=
  if deadlineMs = 0 then 0 else nowAtSubmit + deadlineMs

/-- exec with timeout (threadpool_V1.h, lines 109 to 128): computes
expireTime from the cached TNOWMS, wraps the bound callable in a
packaged_task, builds the envelope, pushes it at the BACK of tasks_
under the mutex, notifies one worker, and returns the future.  The
returned future is named by id; work is the bound callable.  Nothing
in the function consults bTerminate_.  The one-argument overload
(lines 92 to 96) calls this with timeoutMs equal to 0. -/
def exec (pool : ThreadPool) (timeoutMs : Int) (id : Nat)
    (work : Except String Int) : ThreadPool :=
  { pool with tasks_ :=
      pool.tasks_ ++ [⟨id, work, expireTimeOf pool timeoutMs⟩] }

/-- get (threadpool_V1.cpp, lines 61 to 79): under the mutex, if the
queue is empty, wait on the condition variable until bTerminate_ or
the queue is non-empty; then, if bTerminate_, return false; else if
the queue is non-empty, move out the front task, pop it, and return
true.  The model returns the dequeued task as an Option together with
the new state.  The branch with an empty queue and bTerminate_ false
is where the real call blocks inside the wait (the trailing return
false of the C++ body is unreachable once the wait predicate holds);
theorems about get in that region are stated only under the wakeup
condition bTerminate_ or non-empty. -/
def get (pool : ThreadPool) : Option TaskFunc × ThreadPool :=
  if pool.bTerminate_ then (none, pool)
  else
    match pool.tasks_ with
    | [] => (none, pool)
    | t :: ts => (some t, { pool with tasks_ := ts })

/-- Invocation of the packaged_task built by exec: runs the bound
callable and stores either the returned value or the raised fault into
the shared state of the future.  The invocation never propagates the
fault of the work item to its caller, which is why the catch clause in
run (threadpool_V1.cpp, lines 99 to 102) is unreachable for task
faults. -/
def runPackagedTask (work : Except String Int) : Outcome :=
  match work with
  | Except.ok v => Outcome.value v
  | Except.error e => Outcome.fault e

/-- Body of one successful worker iteration in run (threadpool_V1.cpp,
lines 86 to 111), after get returned true with task t: increment
atomic_; if t._expireTime is non-zero and less than TNOWMS (the cached
const member, NOT a fresh clock reading) the task is dropped with an
empty branch; otherwise _func is invoked, fulfilling the promise of t;
decrement atomic_; if atomic_ is 0 and the queue is empty, notify_all
(no state change in the model). -/
def runTaskBody (pool : ThreadPool) (t : TaskFunc) : ThreadPool :=
  let p1 := { pool with atomic_ := pool.atomic_ + 1 }
  let p2 :=
    if t._expireTime ≠ 0 ∧ t._expireTime < p1.TNOWMS then p1
    else { p1 with fulfilled := p1.fulfilled ++ [(t.id, runPackagedTask t.work)] }
  { p2 with atomic_ := p2.atomic_ - 1 }

/-- One iteration of the worker loop run (threadpool_V1.cpp, lines 81
to 113): while not isTerminate(), call get; on success run the body;
on failure loop again (no state change).  When bTerminate_ is set the
loop condition fails and the thread leaves the loop, so the step is
the identity. -/
def runStep (pool : ThreadPool) : ThreadPool :=
  if pool.bTerminate_ then pool
  else
    match get pool with
    | (none, p) => p
    | (some t, p) => runTaskBody p t

/-- terminate (threadpool_V1.cpp, lines 27 to 42): under the mutex set
bTerminate_ and notify_all; join every thread in threads_ (joining
blocks until the workers leave their loops; it does not change the
pool state in the model); then clear threads_.  The queue tasks_ is
NOT touched.  The destructor (lines 9 to 12) calls terminate. -/
def terminate (pool : ThreadPool) : ThreadPool :=
  { pool with bTerminate_ := true, threads_ := 0 }

/-- init (threadpool_V1.cpp, lines 14 to 25): under the mutex, return
false if threads_ is non-empty, else record num in threadNum_ and
return true. -/
def init (pool : ThreadPool) (num : Nat) : Bool × ThreadPool :=
  if pool.threads_ ≠ 0 then (false, pool)
  else (true, { pool with threadNum_ := num })

/-- start (threadpool_V1.cpp, lines 44 to 59): under the mutex, return
false if threads_ is non-empty, else spawn threadNum_ threads each
running the worker loop and store their handles in threads_, and
return true. -/
def start (pool : ThreadPool) : Bool × ThreadPool :=
  if pool.threads_ ≠ 0 then (false, pool)
  else (true, { pool with threads_ := pool.threadNum_ })

/-- waitForAllDone (threadpool_V1.cpp, lines 115 to 129): under the
mutex, return true at once if tasks_ is empty; for a negative
millsecond, wait on the condition variable until tasks_ is empty and
return true (the model gives the value the call returns when it
returns); otherwise wait_for up to millsecond ms and return the value
of the predicate when the wait ends, which with no concurrent
mutation is the emptiness of tasks_ at entry.  NOTE, decisive for the
drain claims: every branch consults only tasks_.empty(); the in-flight
counter atomic_ is never examined. -/
def waitForAllDone (pool : ThreadPool) (millsecond : Int) : Bool :=
  if pool.tasks_.isEmpty then true
  else if millsecond < 0 then true
  else pool.tasks_.isEmpty

/-- Submission item: (timeoutMs, promise id, bound work). -/
abbrev SubmitItem : Type := Int × Nat × Except String Int

/-- Envelope that exec builds from pool state and a submission item. -/
def taskOf (pool : ThreadPool) (it : SubmitItem) : TaskFunc :=
  ⟨it.2.1, it.2.2, expireTimeOf pool it.1⟩

/-- Submitting a list of items in order, each through exec. -/
def submitSeq (pool : ThreadPool) (items : List SubmitItem) : ThreadPool :=
  items.foldl (fun p it => exec p it.1 it.2.1 it.2.2) pool

/-- Repeatedly dequeue through get, collecting the dequeued envelopes
in order; fuel bounds the number of calls. -/
def popAll (pool : ThreadPool) : Nat → List TaskFunc
  | 0 => []
  | fuel + 1 =>
    match get pool with
    | (some t, p) => t :: popAll p fuel
    | (none, _) => []

/-- Invariant claimed for the worker vector: empty or exactly the
configured count. -/
def threadsInv (pool : ThreadPool) : Prop :=
  pool.threads_ = 0 ∨ pool.threads_ = pool.threadNum_

/-- Concrete pool for the expiry claims: constructed when the clock
read 0, one task submitted with timeout 10 ms, promise id 1, work
returning 42. -/
def c2pool : ThreadPool := exec (construct 0) 10 1 (Except.ok 42)

/-- Concrete pool for the drain claim: queue empty while one worker is
mid-execution of the last dequeued task (atomic_ is 1). -/
def c3pool : ThreadPool :=
  { construct 0 with threads_ := 1, atomic_ := 1 }

/-- Concrete pool for the dequeue-on-termination claim: one pending
task and the shutdown flag set by terminate. -/
def c4pool : ThreadPool := terminate (exec (construct 0) 0 1 (Except.ok 0))

/-- Concrete pool for the queue-cleared-on-termination claim: one
pending task at the moment terminate is called. -/
def c5pool : ThreadPool := exec (construct 0) 0 1 (Except.ok 0)

/-- Concrete running pool (not terminating) holding one pending task,
used to exercise the successful-dequeue branch of get. -/
def c4run : ThreadPool := exec (construct 0) 0 2 (Except.ok 3)

/-- Concrete pool whose worker vector is non-empty, used to exercise
the failure branches of init and start. -/
def busyPool : ThreadPool := { construct 0 with threads_ := 2 }

/-- Concrete pool with a faulting task at the front of the queue and a
second, healthy task behind it. -/
def c9pool : ThreadPool :=
  { construct 0 with
    tasks_ := [⟨1, Except.error "boom", 0⟩, ⟨2, Except.ok 5, 0⟩] }

/-- Concrete submission list: first item without timeout, second with
a 5 ms timeout. -/
def c8items : List SubmitItem :=
  [(0, 1, Except.ok 10), (5, 2, Except.error "x")]

/-!
Theorems.  Each claim of the specification review is settled by one
theorem below; counterexample and witness theorems accompany them
where needed.
-/

/-- C1 (evaluation at the failing input): the expiry stored by exec is
computed from the construction-time clock cache TNOWMS, not from a
fresh clock reading at the submit call.  Concretely: a pool
constructed when the clock read 100 ms, receiving submit(50, work)
later when a fresh clock would read 500 ms, stores expireAt 150
(TNOWMS + 50), whereas the claim requires 500 + 50 = 550. -/
theorem c1_expiry_uses_construction_clock :
    expireTimeOf (construct 100) 50 = 150 ∧
    specExpireAt 500 50 = 550 ∧
    expireTimeOf (construct 100) 50 ≠ specExpireAt 500 50 ∧
    (exec (construct 100) 50 7 (Except.ok 0)).tasks_.map TaskFunc._expireTime
      = [150] := by
  refine ⟨rfl, rfl, ?_, rfl⟩
  decide

/-- C3 (evaluation at the failing input): waitForAllDone(0) returns
true on a pool whose queue is empty while one task is still in flight
(atomic_ is 1), because every branch of waitForAllDone consults only
the emptiness of tasks_; the claim requires false whenever a task is
still running. -/
theorem c3_waitforalldone_ignores_inflight :
    waitForAllDone c3pool 0 = true ∧ c3pool.atomic_ = 1 ∧ c3pool.tasks_ = [] :=
  ⟨rfl, rfl, rfl⟩

/-- C5 counterexample: a pool holding one pending task still reports
that task after terminate; getJobNum is 1, not 0, refuting the claim
that the pending-task sequence is empty after terminate returns. -/
theorem c5_terminate_queue_counterexample :
    getJobNum (terminate c5pool) = 1 ∧ getJobNum (terminate c5pool) ≠ 0 :=
  ⟨rfl, by decide⟩

/-- C5 amended: terminate clears the worker-thread vector and sets the
shutdown flag, but does NOT clear the task queue: the pending-task
sequence after terminate is exactly the one before it. -/
theorem c5_terminate_leaves_queue (pool : ThreadPool) :
    (terminate pool).tasks_ = pool.tasks_ ∧
    getThreadNum (terminate pool) = 0 ∧
    (terminate pool).bTerminate_ = true :=
  ⟨rfl, rfl, rfl⟩

/-- C6: terminate is idempotent: a second call (including the one the
destructor performs after an explicit call) leaves the pool state
exactly as one call does, and the worker-thread count is 0 after
either call. -/
theorem c6_terminate_idempotent (pool : ThreadPool) :
    terminate (terminate pool) = terminate pool ∧
    getThreadNum (terminate pool) = 0 ∧
    getThreadNum (terminate (terminate pool)) = 0 :=
  ⟨rfl, rfl, rfl⟩

/-- C10: submission is never rejected: in every state exec appends the
envelope (getJobNum grows by one), in particular also after terminate;
and on a terminated pool get yields no task and a worker step is the
identity, so a task submitted after terminate is never executed and
its future is never fulfilled. -/
theorem c10_submit_after_terminate (pool : ThreadPool) (tm : Int) (id : Nat)
    (w : Except String Int) :
    getJobNum (exec pool tm id w) = getJobNum pool + 1 ∧
    getJobNum (exec (terminate pool) tm id w)
      = getJobNum (terminate pool) + 1 ∧
    runStep (exec (terminate pool) tm id w) = exec (terminate pool) tm id w ∧
    (get (exec (terminate pool) tm id w)).1 = none := by
  refine ⟨?_, ?_, rfl, rfl⟩ <;> simp [getJobNum, exec]

/-- C2 (the discard branch is unreachable for positive timeouts): a
task submitted with timeoutMs greater than 0 is ALWAYS executed and
its promise fulfilled when a worker reaches it, no matter how much
real time has elapsed, because the expiry check compares the stored
expireAt (TNOWMS + timeoutMs) against the same cached TNOWMS and
never against a fresh clock reading; the claim requires such a task to
be discarded once its deadline has passed. -/
theorem c2_positive_timeout_never_discarded (pool : ThreadPool) (tm : Int)
    (id : Nat) (w : Except String Int) (htm : 0 < tm)
    (hterm : pool.bTerminate_ = false) (hq : pool.tasks_ = []) :
    (runStep (exec pool tm id w)).fulfilled
      = pool.fulfilled ++ [(id, runPackagedTask w)] := by
  have htm0 : ¬ tm = 0 := by omega
  have hneg : ¬ tm < 0 := by omega
  simp [runStep, exec, get, runTaskBody, expireTimeOf, hterm, hq, htm0, hneg]

/-- C2 witness: the pool constructed at clock 0 with one task of
timeout 10 ms executes that task (promise 1 fulfilled with 42) on the
next worker step, although the scenario of the claim has its deadline
long past. -/
theorem c2_positive_timeout_never_discarded_witness :
    (runStep c2pool).fulfilled = [(1, Outcome.value 42)] := by
  have h := c2_positive_timeout_never_discarded (construct 0) 10 1
    (Except.ok 42) (by decide) rfl rfl
  simpa [c2pool] using h

/-- C4 counterexample: on a terminating pool holding one pending task,
get signals stop (returns no task) although the queue is non-empty;
the claim states stop is signalled only when terminating AND empty,
and that a dequeue on a non-empty queue returns the front task. -/
theorem c4_get_counterexample :
    c4pool.tasks_ ≠ [] ∧ c4pool.bTerminate_ = true ∧ (get c4pool).1 = none := by
  refine ⟨?_, rfl, rfl⟩
  decide

/-- C4 amended: get signals stop whenever the pool is terminating,
regardless of queue contents (so a worker can leave its run loop with
tasks still queued); only while not terminating does a dequeue on a
non-empty queue return the front task. -/
theorem c4_get_stops_whenever_terminating (pool : ThreadPool) (t : TaskFunc)
    (ts : List TaskFunc) :
    (pool.bTerminate_ = true → (get pool).1 = none) ∧
    (pool.bTerminate_ = false → pool.tasks_ = t :: ts →
      get pool = (some t, { pool with tasks_ := ts })) := by
  constructor
  · intro h
    simp [get, h]
  · intro h hq
    simp [get, h, hq]

/-- C4 witness: the amended statement evaluated at the concrete pools:
the terminating pool with a pending task yields no task, and the
running pool with one pending task yields exactly that front task. -/
theorem c4_get_stops_whenever_terminating_witness :
    (get c4pool).1 = none ∧
    get c4run = (some ⟨2, Except.ok 3, 0⟩, { c4run with tasks_ := [] }) := by
  constructor
  · exact (c4_get_stops_whenever_terminating c4pool ⟨2, Except.ok 3, 0⟩ []).1 rfl
  · exact (c4_get_stops_whenever_terminating c4run ⟨2, Except.ok 3, 0⟩ []).2
      rfl (by decide)

/-- C9: a task whose work raises has the fault captured and written to
its own promise; the rest of the queue, the shutdown flag (so the
worker keeps looping), the worker vector and the in-flight counter
are untouched: the failure is local to that Result Handle. -/
theorem c9_fault_isolated (pool : ThreadPool) (id : Nat) (e : String)
    (rest : List TaskFunc) (hterm : pool.bTerminate_ = false)
    (hq : pool.tasks_ = ⟨id, Except.error e, 0⟩ :: rest) :
    (runStep pool).fulfilled = pool.fulfilled ++ [(id, Outcome.fault e)] ∧
    (runStep pool).tasks_ = rest ∧
    (runStep pool).bTerminate_ = false ∧
    (runStep pool).threads_ = pool.threads_ ∧
    (runStep pool).atomic_ = pool.atomic_ := by
  simp [runStep, get, hterm, hq, runTaskBody, runPackagedTask]

/-- C9 witness: on the concrete pool with a faulting task in front of
a healthy one, one worker step fulfills promise 1 with the fault,
leaves the healthy task queued, and leaves the shutdown flag unset. -/
theorem c9_fault_isolated_witness :
    (runStep c9pool).fulfilled = [(1, Outcome.fault "boom")] ∧
    (runStep c9pool).tasks_ = [⟨2, Except.ok 5, 0⟩] ∧
    (runStep c9pool).bTerminate_ = false := by
  have h := c9_fault_isolated c9pool 1 "boom" [⟨2, Except.ok 5, 0⟩] rfl rfl
  exact ⟨h.1, h.2.1, h.2.2.1⟩

/-- C7: init followed by start on a fresh pool succeeds and spawns
exactly the configured number of workers; init or start on a pool that
already has workers fails and changes nothing; and init, start and
terminate each preserve the invariant that the worker vector is empty
or exactly the configured count. -/
theorem c7_init_start_thread_counts (pool : ThreadPool) (k : Nat) :
    (pool.threads_ = 0 →
      (init pool k).1 = true ∧
      (start (init pool k).2).1 = true ∧
      getThreadNum (start (init pool k).2).2 = k) ∧
    (pool.threads_ ≠ 0 →
      init pool k = (false, pool) ∧ start pool = (false, pool)) ∧
    (threadsInv pool →
      threadsInv (init pool k).2 ∧ threadsInv (start pool).2 ∧
      threadsInv (terminate pool)) := by
  refine ⟨?_, ?_, ?_⟩
  · intro h
    simp [init, start, getThreadNum, h]
  · intro h
    simp [init, start, h]
  · intro hinv
    by_cases h : pool.threads_ = 0
    · refine ⟨?_, ?_, Or.inl rfl⟩
      · simp [init, threadsInv, h]
      · simp [start, threadsInv, h]
    · refine ⟨?_, ?_, Or.inl rfl⟩
      · simpa [init, threadsInv, h] using hinv
      · simpa [start, threadsInv, h] using hinv

/-- C7 witness: the three parts evaluated at concrete pools: a fresh
pool with init 3 then start has exactly 3 workers; a pool with 2
workers refuses init and start unchanged; and the invariant holds of
the states init, start and terminate produce from a fresh pool. -/
theorem c7_init_start_thread_counts_witness :
    ((init (construct 0) 3).1 = true ∧
      (start (init (construct 0) 3).2).1 = true ∧
      getThreadNum (start (init (construct 0) 3).2).2 = 3) ∧
    (init busyPool 5 = (false, busyPool) ∧ start busyPool = (false, busyPool)) ∧
    (threadsInv (init (construct 0) 3).2 ∧ threadsInv (start (construct 0)).2 ∧
      threadsInv (terminate (construct 0))) :=
  ⟨(c7_init_start_thread_counts (construct 0) 3).1 rfl,
    (c7_init_start_thread_counts busyPool 5).2.1 (by decide),
    (c7_init_start_thread_counts (construct 0) 3).2.2 (Or.inl rfl)⟩

/-- Unfolding lemma: exec pushes exactly the envelope taskOf builds. -/
theorem exec_tasks_eq (pool : ThreadPool) (tm : Int) (id : Nat)
    (w : Except String Int) :
    (exec pool tm id w).tasks_ = pool.tasks_ ++ [taskOf pool (tm, id, w)] :=
  rfl

/-- Submitting a list of items appends, in submission order, the
envelopes built from the TNOWMS of the starting state; the shutdown
flag and the clock cache are untouched. -/
theorem submitSeq_spec (items : List SubmitItem) (pool : ThreadPool) :
    (submitSeq pool items).tasks_ = pool.tasks_ ++ items.map (taskOf pool) ∧
    (submitSeq pool items).bTerminate_ = pool.bTerminate_ ∧
    (submitSeq pool items).TNOWMS = pool.TNOWMS := by
  induction items generalizing pool with
  | nil =>
    simp [submitSeq]
  | cons it rest ih =>
    have hstep : submitSeq pool (it :: rest)
        = submitSeq (exec pool it.1 it.2.1 it.2.2) rest := rfl
    have h := ih (exec pool it.1 it.2.1 it.2.2)
    have e2 : taskOf (exec pool it.1 it.2.1 it.2.2) = taskOf pool := rfl
    refine ⟨?_, ?_, ?_⟩
    · rw [hstep, h.1, e2, exec_tasks_eq]
      simp
    · rw [hstep, h.2.1]
      rfl
    · rw [hstep, h.2.2]
      rfl

/-- Dequeuing as many times as there are queued tasks on a
non-terminating pool returns exactly the queued list, front first. -/
theorem popAll_eq_tasks (fuel : Nat) (pool : ThreadPool)
    (hterm : pool.bTerminate_ = false) (hlen : pool.tasks_.length = fuel) :
    popAll pool fuel = pool.tasks_ := by
  induction fuel generalizing pool with
  | zero =>
    have h0 : pool.tasks_ = [] := List.length_eq_zero.mp hlen
    simp [popAll, h0]
  | succ n ih =>
    cases hq : pool.tasks_ with
    | nil =>
      rw [hq] at hlen
      simp at hlen
    | cons t ts =>
      have hget : get pool = (some t, { pool with tasks_ := ts }) := by
        simp [get, hterm, hq]
      have h1 : popAll pool (n + 1) = t :: popAll { pool with tasks_ := ts } n := by
        simp [popAll, hget]
      have hlen2 : ({ pool with tasks_ := ts } : ThreadPool).tasks_.length = n := by
        rw [hq] at hlen
        simpa using hlen
      rw [h1, ih { pool with tasks_ := ts } hterm hlen2]

/-- C8: dequeue order equals submission order: exec appends the
envelope at the back of the queue, and dequeuing a list of tasks
submitted to an idle, non-terminating pool returns them exactly in
submission order (strict FIFO, no reordering). -/
theorem c8_fifo_order (pool : ThreadPool) (items : List SubmitItem) (tm : Int)
    (id : Nat) (w : Except String Int)
    (hterm : pool.bTerminate_ = false) (hq : pool.tasks_ = []) :
    (exec pool tm id w).tasks_ = pool.tasks_ ++ [taskOf pool (tm, id, w)] ∧
    popAll (submitSeq pool items) items.length = items.map (taskOf pool) := by
  refine ⟨rfl, ?_⟩
  have hs := submitSeq_spec items pool
  have hterm2 : (submitSeq pool items).bTerminate_ = false := by
    rw [hs.2.1, hterm]
  have hlen : (submitSeq pool items).tasks_.length = items.length := by
    rw [hs.1, hq]
    simp
  rw [popAll_eq_tasks items.length (submitSeq pool items) hterm2 hlen, hs.1, hq]
  simp

/-- C8 witness: the two concrete items are dequeued in submission
order with the envelopes exec built for them. -/
theorem c8_fifo_order_witness :
    popAll (submitSeq (construct 0) c8items) c8items.length
      = c8items.map (taskOf (construct 0)) :=
  (c8_fifo_order (construct 0) c8items 0 0 (Except.ok 0) rfl rfl).2

end ThreadPoolV1
